import Mathlib

set_option autoImplicit false

/-!
Verification of the convoy event-delivery processor and of the postgres
event-delivery repository (`database/postgres/event_delivery.go`).

The worker body `ProcessEventDelivery` is not part of the sources; only its
test file (`TestProcessEventDelivery`) is.  The processor is therefore
modelled from the procedure of the specification (spec §4.1), refined at the
points where the in-repo test expectations pin the behaviour down:

* the rate limiter is consulted before the inactive-endpoint gate (the
  "Endpoint is inactive" test expects an `AllowWithDuration` call);
* the inactive-endpoint path performs two delivery-status updates, one to
  `discarded` and one to `scheduled` (the test expects two
  `UpdateStatusOfEventDelivery` calls; the design note of the spec records the
  double update and calls it a bug);
* the retry-exhaustion block (`num-trials + 1 >= retry-limit`) runs for both
  outcomes of the dispatch: the "Manual retry - disable endpoint - success"
  test registers a genuine 200 responder and still expects
  `UpdateEndpointStatus(..., InactiveEndpointStatus)`;
* the endpoint-status update itself is not gated on the licence (the
  "advanced endpoint mgmt false" test still expects `UpdateEndpointStatus`);
  the licence and a non-empty endpoint support email gate only the
  notification enqueue (the disable tests without a support email expect no
  queue write; the one with a support email expects exactly one).
-/

/-! ## Data model (spec §3) -/

inductive EndpointStatus
  | active
  | inactive
  | pending
  | paused
deriving DecidableEq, Repr

inductive EventDeliveryStatus
  | scheduled
  | processing
  | retry
  | success
  | failure
  | discarded
deriving DecidableEq, Repr

inductive DeliveryMode
  | atLeastOnce
  | atMostOnce
deriving DecidableEq, Repr

inductive StrategyType
  | linear
  | exponential
deriving DecidableEq, Repr

/-- Modelled from the spec: the `metadata` field of an EventDelivery,
`{num-trials, retry-limit, interval-seconds, strategy-type}` (payload bytes
and next-send-time are not needed by any claim). -/
structure Metadata where
  numTrials : Nat
  retryLimit : Nat
  intervalSeconds : Nat
  strategyType : StrategyType
deriving DecidableEq, Repr

/-- Modelled from the spec: the slice of an EventDelivery the processor
consults. -/
structure EventDelivery where
  status : EventDeliveryStatus
  deliveryMode : DeliveryMode
  metadata : Metadata
deriving DecidableEq, Repr

/-- Modelled from the spec: the slice of an Endpoint the processor consults. -/
structure Endpoint where
  status : EndpointStatus
  supportEmail : String
deriving DecidableEq, Repr

/-- Modelled from the spec: the project configuration flag consulted by the
retry-exhaustion block. -/
structure ProjectConfig where
  disableEndpoint : Bool
deriving DecidableEq, Repr

/-- Modelled from the spec: the licence capability consulted on the
retry-exhaustion path. -/
structure Licenser where
  advancedEndpointMgmt : Bool
deriving DecidableEq, Repr

/-- Modelled from the spec: the observable result of the single HTTP dispatch
attempt — either a subscriber response with a status code, or a transport
error with a human-readable message. -/
inductive DispatchOutcome
  | response (statusCode : Nat)
  | transportError (message : String)
deriving DecidableEq, Repr

/-- Modelled from the spec: classification of the subscriber response,
success iff HTTP status in [200, 299] and no transport error (spec §4.1
step 7, §6). -/
def dispatchSuccess : DispatchOutcome → Bool
  | .response statusCode => 200 ≤ statusCode && statusCode ≤ 299
  | .transportError _ => false

/-- Modelled from the spec: the failure description, the transport error text
or `"Endpoint returned status code N"` (spec §4.1 step 7). -/
def failureDescription : DispatchOutcome → String
  | .response statusCode => "Endpoint returned status code " ++ toString statusCode
  | .transportError message => message

/-- Modelled from the spec: the strategy-computed next-send delay, linear =
`interval-seconds`, exponential = `interval-seconds * 2^num-trials` capped at
`max-retry-seconds` (spec §4.1 step 9). -/
def nextDelaySeconds (strategyType : StrategyType)
    (intervalSeconds numTrials maxRetrySeconds : Nat) : Nat :=
  match strategyType with
  | .linear => intervalSeconds
  | .exponential => min (intervalSeconds * 2 ^ numTrials) maxRetrySeconds

/-- Terminal delivery statuses (spec §3: terminal states are success,
failure, discarded). -/
def isTerminalStatus : EventDeliveryStatus → Bool
  | .success => true
  | .failure => true
  | .discarded => true
  | _ => false

/-- The status/num-trials/description triple committed by the final
metadata write of the processor (`UpdateEventDeliveryMetadata`). -/
structure MetadataWrite where
  status : EventDeliveryStatus
  numTrials : Nat
  description : String
deriving DecidableEq, Repr

/-- The externally observable effects of one processor execution:
`statusUpdates` lists the `UpdateStatusOfEventDelivery` calls in order,
`metadataWrite` the final `UpdateEventDeliveryMetadata` call,
`attemptsRecorded` the `CreateDeliveryAttempt` calls, `requeueDelay` the
re-enqueue of the delivery job, `notificationsEnqueued` the writes to the
notification queue, `endpointUpdates` the `UpdateEndpointStatus` calls,
`captures` the observability capture events, and `acked` whether the job is
acknowledged (the handler returns no error). -/
structure ProcessResult where
  statusUpdates : List EventDeliveryStatus := []
  dispatched : Bool := false
  attemptsRecorded : Nat := 0
  metadataWrite : Option MetadataWrite := none
  requeueDelay : Option Nat := none
  notificationsEnqueued : Nat := 0
  endpointUpdates : List EndpointStatus := []
  captures : Nat := 0
  acked : Bool := true
deriving DecidableEq, Repr

/-- Modelled from the spec: the event-delivery processor (spec §4.1), whose
body (`worker/task/ProcessEventDelivery`) is absent from the sources; only
its test file is present.  The procedure follows the steps of the spec with the
refinements forced by the in-repo test expectations (see the file header):
terminal short-circuit; rate-limit gate; inactive-endpoint gate with the
double status update; dispatch; attempt recording; outcome classification;
retry policy; retry-exhaustion block (runs for both outcomes, endpoint
disable gated only on the project flag, notification additionally gated on
the licence and a non-empty support email); final metadata commit. -/
def processEventDelivery (d : EventDelivery) (ep : Endpoint) (pr : ProjectConfig)
    (lic : Licenser) (rateLimitAllowed : Bool) (rateLimitRetryAfter : Nat)
    (maxRetrySeconds : Nat) (outcome : DispatchOutcome) : ProcessResult :=
  if isTerminalStatus d.status then
    { captures := 1 }
  else if !rateLimitAllowed then
    { statusUpdates := [.scheduled], requeueDelay := some rateLimitRetryAfter, captures := 1 }
  else if ep.status = .inactive then
    { statusUpdates := [.discarded, .scheduled], captures := 1 }
  else
    let done := dispatchSuccess outcome
    let numTrials := d.metadata.numTrials + 1
    let status :=
      if done then EventDeliveryStatus.success
      else if d.deliveryMode = .atMostOnce then .failure
      else if d.metadata.retryLimit ≤ numTrials then .failure
      else .retry
    let description := if done then "" else failureDescription outcome
    { statusUpdates := [.processing]
      dispatched := true
      attemptsRecorded := 1
      metadataWrite := some { status := status, numTrials := numTrials, description := description }
      requeueDelay :=
        if !done && d.deliveryMode = .atLeastOnce && numTrials < d.metadata.retryLimit then
          some (nextDelaySeconds d.metadata.strategyType d.metadata.intervalSeconds
            d.metadata.numTrials maxRetrySeconds)
        else none
      notificationsEnqueued :=
        if d.metadata.retryLimit ≤ numTrials && pr.disableEndpoint
            && lic.advancedEndpointMgmt && ep.supportEmail ≠ "" then 1 else 0
      endpointUpdates :=
        if d.metadata.retryLimit ≤ numTrials && pr.disableEndpoint then [.inactive] else []
      captures := 2 }

/-! ## Postgres event-delivery repository (`database/postgres/event_delivery.go`) -/

/-- One row of `convoy.event_deliveries`, restricted to the columns the
claims touch.  `deliveryMode` is the nullable `delivery_mode` column;
timestamps are abstract instants (`Nat`). -/
structure EventDeliveryRow where
  id : String
  projectId : String
  eventId : String
  eventType : String
  endpointId : Option String
  status : String
  metadata : String
  description : String
  deliveryMode : Option String
  latencySeconds : Nat
  createdAt : Nat
  updatedAt : Nat
  deletedAt : Option Nat
deriving DecidableEq, Repr

/-- The errors returned by the repository when an UPDATE affects no row. -/
inductive RepoError
  | eventDeliveryAttemptsNotUpdated
  | eventDeliveryStatusNotUpdated
deriving DecidableEq, Repr

/-- The Go-side `datastore.EventDelivery` value materialised by the read
paths, restricted to the fields the claims touch; every field defaults to
its Go zero value, which is what a SELECT that omits the column leaves
behind. -/
structure DatastoreEventDelivery where
  uid : String := ""
  projectId : String := ""
  eventId : String := ""
  eventType : String := ""
  endpointId : String := ""
  status : String := ""
  metadata : String := ""
  description : String := ""
  deliveryMode : String := ""
  latencySeconds : Nat := 0
deriving DecidableEq, Repr

/-- The row inserted by `CreateEventDelivery` / `CreateEventDeliveries`:
an empty endpoint id is stored as NULL, and an empty delivery mode is
defaulted to `at_least_once` before the INSERT. -/
def rowOfNewEventDelivery (d : DatastoreEventDelivery) (now : Nat) : EventDeliveryRow :=
  { id := d.uid
    projectId := d.projectId
    eventId := d.eventId
    eventType := d.eventType
    endpointId := if d.endpointId = "" then none else some d.endpointId
    status := d.status
    metadata := d.metadata
    description := d.description
    deliveryMode := some (if d.deliveryMode = "" then "at_least_once" else d.deliveryMode)
    latencySeconds := d.latencySeconds
    createdAt := now
    updatedAt := now
    deletedAt := none }

/-- `CreateEventDelivery`: insert one row. -/
def createEventDelivery (table : List EventDeliveryRow) (d : DatastoreEventDelivery)
    (now : Nat) : List EventDeliveryRow :=
  table ++ [rowOfNewEventDelivery d now]

/-- `CreateEventDeliveries`: bulk insert; each delivery is normalised exactly
as in the single-row path. -/
def createEventDeliveries (table : List EventDeliveryRow)
    (ds : List DatastoreEventDelivery) (now : Nat) : List EventDeliveryRow :=
  table ++ ds.map (fun d => rowOfNewEventDelivery d now)

/-- The WHERE clause of `updateEventDeliveryMetadata`:
`id = $4 AND project_id = $5 AND deleted_at IS NULL`. -/
def matchesMetadataUpdate (r : EventDeliveryRow) (uid pid : String) : Bool :=
  r.id == uid && r.projectId == pid && r.deletedAt.isNone

/-- `UpdateEventDeliveryMetadata`: one UPDATE setting `status`, `metadata`,
`latency_seconds` and `updated_at = NOW()` on the rows matched by
`matchesMetadataUpdate`; when no row is affected the repository returns
`ErrEventDeliveryAttemptsNotUpdated`. -/
def updateEventDeliveryMetadata (table : List EventDeliveryRow) (now : Nat)
    (status metadata : String) (latencySeconds : Nat) (uid pid : String) :
    Except RepoError (List EventDeliveryRow) :=
  if table.countP (fun r => matchesMetadataUpdate r uid pid) = 0 then
    .error .eventDeliveryAttemptsNotUpdated
  else
    .ok (table.map (fun r =>
      if matchesMetadataUpdate r uid pid then
        { r with status := status, metadata := metadata,
                 latencySeconds := latencySeconds, updatedAt := now }
      else r))

/-- The WHERE clause of `updateEventDeliveriesStatus`: the project id equals
the parameter or the parameter is the empty string, the id is in the given
list, and `deleted_at IS NULL`. -/
def matchesStatusUpdate (r : EventDeliveryRow) (pid : String) (ids : List String) : Bool :=
  (r.projectId == pid || pid == "") && ids.contains r.id && r.deletedAt.isNone

/-- `UpdateStatusOfEventDeliveries`: one UPDATE setting `status`,
`description` and `updated_at = NOW()`; when no row is affected the
repository returns `ErrEventDeliveryStatusNotUpdated`. -/
def updateStatusOfEventDeliveries (table : List EventDeliveryRow) (now : Nat)
    (status description pid : String) (ids : List String) :
    Except RepoError (List EventDeliveryRow) :=
  if table.countP (fun r => matchesStatusUpdate r pid ids) = 0 then
    .error .eventDeliveryStatusNotUpdated
  else
    .ok (table.map (fun r =>
      if matchesStatusUpdate r pid ids then
        { r with status := status, description := description, updatedAt := now }
      else r))

/-- `UpdateStatusOfEventDelivery`: the single-row wrapper, passing the
description of the delivery and a one-element id list. -/
def updateStatusOfEventDelivery (table : List EventDeliveryRow) (now : Nat)
    (status description pid uid : String) : Except RepoError (List EventDeliveryRow) :=
  updateStatusOfEventDeliveries table now status description pid [uid]

/-- `fetchStuckEventDeliveries`: `SELECT id, project_id ... WHERE status = $1
AND created_at <= now() - make_interval(secs := 30) AND deleted_at IS NULL
FOR UPDATE SKIP LOCKED LIMIT 1000`.  `locked` is the set of row ids currently
row-locked by other transactions; SKIP LOCKED drops them from the result. -/
def fetchStuckEventDeliveries (table : List EventDeliveryRow) (locked : List String)
    (now : Nat) (status : String) : List EventDeliveryRow :=
  (table.filter (fun r =>
    r.status == status && decide (r.createdAt + 30 ≤ now)
      && r.deletedAt.isNone && !(locked.contains r.id))).take 1000

/-- `FindStuckEventDeliveriesByStatus`: scans the result of the stuck-row query
into `datastore.EventDelivery` values; since the query selects only `id` and
`project_id`, every other field keeps its Go zero value. -/
def findStuckEventDeliveriesByStatus (table : List EventDeliveryRow) (locked : List String)
    (now : Nat) (status : String) : List DatastoreEventDelivery :=
  (fetchStuckEventDeliveries table locked now status).map
    (fun r => { uid := r.id, projectId := r.projectId })

/-- The column projection shared by `fetchEventDeliverySlim` and
`baseFetchEventDelivery`: `endpoint_id` is coalesced to the empty
string and `delivery_mode` to `at_least_once`. -/
def toDatastoreEventDelivery (r : EventDeliveryRow) : DatastoreEventDelivery :=
  { uid := r.id
    projectId := r.projectId
    eventId := r.eventId
    eventType := r.eventType
    endpointId := r.endpointId.getD ""
    status := r.status
    metadata := r.metadata
    description := r.description
    deliveryMode := r.deliveryMode.getD "at_least_once"
    latencySeconds := r.latencySeconds }

/-- `FindEventDeliveryByIDSlim` over `fetchEventDeliverySlim`:
`WHERE deleted_at IS NULL AND project_id = $1 AND id = $2`, `none` standing
for the NotFound error. -/
def fetchEventDeliverySlim (table : List EventDeliveryRow) (pid uid : String) :
    Option DatastoreEventDelivery :=
  (table.find? (fun r => r.deletedAt.isNone && r.projectId == pid && r.id == uid)).map
    toDatastoreEventDelivery

/-- Lexicographic comparison of character lists: the text comparison
PostgreSQL applies to the `id` column in the cursor bound and ORDER BY. -/
def charListLe : List Char → List Char → Bool
  | [], _ => true
  | _ :: _, [] => false
  | a :: as, b :: bs =>
    if a < b then true else if b < a then false else charListLe as bs

/-- Text `<=` on the id column. -/
def strLe (a b : String) : Bool := charListLe a.data b.data

/-- The named filter arguments of `LoadEventDeliveriesPaged` used by
`baseEventDeliveryFilter` and the forward-paging cursor. -/
structure PagedFilter where
  projectId : String
  eventId : String
  eventType : String
  startDate : Nat
  endDate : Nat
  cursor : String
  limit : Nat
deriving Repr

/-- `baseEventDeliveryFilter` plus the forward cursor bound of
`baseEventDeliveryPagedForward` (descending order): each of project id,
event id and event type matches when equal to its parameter or when the
parameter is the empty string, the creation time lies between the start and
end dates, `deleted_at IS NULL`, and `id <= :cursor`. -/
def pagedRowFilter (f : PagedFilter) (r : EventDeliveryRow) : Bool :=
  (r.projectId == f.projectId || f.projectId == "")
    && (r.eventId == f.eventId || f.eventId == "")
    && (r.eventType == f.eventType || f.eventType == "")
    && decide (f.startDate ≤ r.createdAt) && decide (r.createdAt ≤ f.endDate)
    && r.deletedAt.isNone
    && strLe r.id f.cursor

/-- `LoadEventDeliveriesPaged`, forward direction, descending id order:
filter, order by id, apply the LIMIT, and scan each row through the
`baseFetchEventDelivery` projection. -/
def loadEventDeliveriesPaged (table : List EventDeliveryRow) (f : PagedFilter) :
    List DatastoreEventDelivery :=
  (((table.filter (pagedRowFilter f)).insertionSort
      (fun a b => strLe b.id a.id = true)).take f.limit).map
    toDatastoreEventDelivery

/-- A well-formed table: the `delivery_mode` column has the enum type
`convoy.delivery_mode` (values `at_least_once` and `at_most_once`, see the
partition DDL in `event_delivery.go`), so a stored mode is either NULL or one
of the two enum labels. -/
def deliveryModeWellFormed (table : List EventDeliveryRow) : Prop :=
  ∀ r ∈ table, r.deliveryMode = none ∨ r.deliveryMode = some "at_least_once"
    ∨ r.deliveryMode = some "at_most_once"

/-! ## Fixtures for concrete instantiations -/

/-- Fixture: a stored delivery row before a metadata update. -/
def mdRowBefore : EventDeliveryRow :=
  { id := "d1", projectId := "p1", eventId := "e1", eventType := "invoice.completed",
    endpointId := some "ep1", status := "processing", metadata := "m1",
    description := "old", deliveryMode := some "at_least_once",
    latencySeconds := 0, createdAt := 0, updatedAt := 0, deletedAt := none }

/-- Fixture: the row `mdRowBefore` after
`updateEventDeliveryMetadata _ 5 "success" "m2" 7 "d1" "p1"`. -/
def mdRowAfter : EventDeliveryRow :=
  { mdRowBefore with status := "success", metadata := "m2", latencySeconds := 7, updatedAt := 5 }

/-- Fixture: a delivery row created at instant 0 with status scheduled. -/
def reaperRowCreated : EventDeliveryRow :=
  rowOfNewEventDelivery
    { uid := "d1", projectId := "p1", eventId := "e1", status := "scheduled", metadata := "m" } 0

/-- Fixture: the row `reaperRowCreated` after its status was set to
processing at instant 99. -/
def reaperRowProcessing : EventDeliveryRow :=
  { reaperRowCreated with status := "processing", description := "", updatedAt := 99 }

/-- Fixture: a processing row created 100 seconds before the reaper runs,
whose stored delivery mode is not NULL. -/
def stuckModeRow : EventDeliveryRow :=
  { id := "d1", projectId := "p1", eventId := "e1", eventType := "", endpointId := none,
    status := "processing", metadata := "m", description := "",
    deliveryMode := some "at_least_once", latencySeconds := 0,
    createdAt := 0, updatedAt := 0, deletedAt := none }

/-! ## Theorems about the delivery processor -/

/-- C7: running the processor on a delivery whose status is already terminal
(success, discarded or failure) performs no HTTP dispatch, records no
DeliveryAttempt, changes no persisted delivery state, emits one
observability capture and acknowledges the job. -/
theorem terminal_status_reprocessing_noop (d : EventDelivery) (ep : Endpoint)
    (pr : ProjectConfig) (lic : Licenser) (rateLimitAllowed : Bool)
    (rateLimitRetryAfter maxRetrySeconds : Nat) (outcome : DispatchOutcome)
    (h : isTerminalStatus d.status = true) :
    processEventDelivery d ep pr lic rateLimitAllowed rateLimitRetryAfter maxRetrySeconds outcome
      = { statusUpdates := [], dispatched := false, attemptsRecorded := 0,
          metadataWrite := none, requeueDelay := none, notificationsEnqueued := 0,
          endpointUpdates := [], captures := 1, acked := true } := by
  unfold processEventDelivery
  rw [h]
  simp

/-- C7 witness: a delivery already in `success` is re-processed as a no-op
besides one capture. -/
theorem terminal_status_reprocessing_noop_witness :
    isTerminalStatus EventDeliveryStatus.success = true
    ∧ processEventDelivery
        { status := .success, deliveryMode := .atLeastOnce,
          metadata := { numTrials := 0, retryLimit := 3, intervalSeconds := 20,
                        strategyType := .linear } }
        { status := .active, supportEmail := "" }
        { disableEndpoint := false } { advancedEndpointMgmt := false }
        true 0 7200 (.response 200)
      = { statusUpdates := [], dispatched := false, attemptsRecorded := 0,
          metadataWrite := none, requeueDelay := none, notificationsEnqueued := 0,
          endpointUpdates := [], captures := 1, acked := true } :=
  ⟨by decide,
   terminal_status_reprocessing_noop _ _ _ _ _ _ _ _ (by decide)⟩

/-- C2: on an inactive endpoint with a non-terminal delivery the processor
performs no dispatch and records no attempt, but it performs TWO
delivery-status updates — one to `discarded` and one to `scheduled` — not
the single `discarded` transition the claim states (the design note of the spec
records the double update as a bug, and the in-repo test expects both
`UpdateStatusOfEventDelivery` calls). -/
theorem inactive_endpoint_double_update_eval :
    processEventDelivery
        { status := .scheduled, deliveryMode := .atLeastOnce,
          metadata := { numTrials := 0, retryLimit := 3, intervalSeconds := 20,
                        strategyType := .linear } }
        { status := .inactive, supportEmail := "" }
        { disableEndpoint := false } { advancedEndpointMgmt := false }
        true 0 7200 (.response 200)
      = { statusUpdates := [.discarded, .scheduled], dispatched := false,
          attemptsRecorded := 0, metadataWrite := none, requeueDelay := none,
          notificationsEnqueued := 0, endpointUpdates := [], captures := 1, acked := true }
    ∧ (processEventDelivery
        { status := .scheduled, deliveryMode := .atLeastOnce,
          metadata := { numTrials := 0, retryLimit := 3, intervalSeconds := 20,
                        strategyType := .linear } }
        { status := .inactive, supportEmail := "" }
        { disableEndpoint := false } { advancedEndpointMgmt := false }
        true 0 7200 (.response 200)).statusUpdates.length = 2 := by
  constructor
  · decide
  · decide

/-- C1 counterexample: in scenario S4 (num-trials 2, retry-limit 3,
disable-endpoint true, advanced endpoint management licensed, dispatch
returns 200) the delivery ends in `success`, but the processor does NOT
leave the endpoint untouched: because num-trials + 1 has reached the retry
limit, the endpoint is set inactive even on the success path. -/
theorem success_after_exhaustion_cex :
    processEventDelivery
        { status := .scheduled, deliveryMode := .atLeastOnce,
          metadata := { numTrials := 2, retryLimit := 3, intervalSeconds := 20,
                        strategyType := .linear } }
        { status := .active, supportEmail := "" }
        { disableEndpoint := true } { advancedEndpointMgmt := true }
        true 0 7200 (.response 200)
      = { statusUpdates := [.processing], dispatched := true, attemptsRecorded := 1,
          metadataWrite := some { status := .success, numTrials := 3, description := "" },
          requeueDelay := none, notificationsEnqueued := 0,
          endpointUpdates := [.inactive], captures := 2, acked := true }
    ∧ (processEventDelivery
        { status := .scheduled, deliveryMode := .atLeastOnce,
          metadata := { numTrials := 2, retryLimit := 3, intervalSeconds := 20,
                        strategyType := .linear } }
        { status := .active, supportEmail := "" }
        { disableEndpoint := true } { advancedEndpointMgmt := true }
        true 0 7200 (.response 200)).endpointUpdates ≠ [] := by
  constructor
  · decide
  · decide

/-- C1 amended: when the dispatch succeeds under disable-endpoint policy and
an exhausted retry budget (num-trials + 1 ≥ retry-limit), the delivery
status is committed as `success`, but the endpoint is set inactive: the
success path does disable the endpoint once the retry budget is exhausted. -/
theorem success_after_exhaustion_disables_endpoint
    (d : EventDelivery) (ep : Endpoint) (pr : ProjectConfig) (lic : Licenser)
    (rateLimitRetryAfter maxRetrySeconds : Nat) (outcome : DispatchOutcome)
    (hterm : isTerminalStatus d.status = false)
    (hep : ep.status = .active)
    (hsucc : dispatchSuccess outcome = true)
    (hex : d.metadata.retryLimit ≤ d.metadata.numTrials + 1)
    (hdis : pr.disableEndpoint = true)
    (_hlic : lic.advancedEndpointMgmt = true) :
    (processEventDelivery d ep pr lic true rateLimitRetryAfter maxRetrySeconds
        outcome).metadataWrite
      = some { status := .success, numTrials := d.metadata.numTrials + 1, description := "" }
    ∧ (processEventDelivery d ep pr lic true rateLimitRetryAfter maxRetrySeconds
        outcome).endpointUpdates = [.inactive] := by
  unfold processEventDelivery
  rw [hterm, hep]
  simp [hsucc, hex, hdis]

/-- C1 witness: the amended behaviour at the S4 inputs. -/
theorem success_after_exhaustion_disables_endpoint_witness :
    (processEventDelivery
        { status := .scheduled, deliveryMode := .atLeastOnce,
          metadata := { numTrials := 2, retryLimit := 3, intervalSeconds := 20,
                        strategyType := .linear } }
        { status := .active, supportEmail := "" }
        { disableEndpoint := true } { advancedEndpointMgmt := true }
        true 0 7200 (.response 200)).metadataWrite
      = some { status := .success, numTrials := 3, description := "" }
    ∧ (processEventDelivery
        { status := .scheduled, deliveryMode := .atLeastOnce,
          metadata := { numTrials := 2, retryLimit := 3, intervalSeconds := 20,
                        strategyType := .linear } }
        { status := .active, supportEmail := "" }
        { disableEndpoint := true } { advancedEndpointMgmt := true }
        true 0 7200 (.response 200)).endpointUpdates = [.inactive] :=
  success_after_exhaustion_disables_endpoint _ _ _ _ _ _ _
    (by decide) (by decide) (by decide) (by decide) (by decide) (by decide)

/-- C3 counterexample: a failed dispatch with num-trials + 1 ≥ retry-limit
under disable-endpoint policy and a licence permitting advanced endpoint
management marks the delivery `failure` and sets the endpoint inactive, but
when the endpoint has no support email NO endpoint-disabled notification is
enqueued (the in-repo disable tests without a support email expect no
notification-queue write). -/
theorem exhausted_failure_without_support_email_cex :
    processEventDelivery
        { status := .scheduled, deliveryMode := .atLeastOnce,
          metadata := { numTrials := 3, retryLimit := 3, intervalSeconds := 20,
                        strategyType := .linear } }
        { status := .active, supportEmail := "" }
        { disableEndpoint := true } { advancedEndpointMgmt := true }
        true 0 7200 (.response 400)
      = { statusUpdates := [.processing], dispatched := true, attemptsRecorded := 1,
          metadataWrite := some { status := .failure, numTrials := 4,
                                  description := "Endpoint returned status code 400" },
          requeueDelay := none, notificationsEnqueued := 0,
          endpointUpdates := [.inactive], captures := 2, acked := true }
    ∧ (processEventDelivery
        { status := .scheduled, deliveryMode := .atLeastOnce,
          metadata := { numTrials := 3, retryLimit := 3, intervalSeconds := 20,
                        strategyType := .linear } }
        { status := .active, supportEmail := "" }
        { disableEndpoint := true } { advancedEndpointMgmt := true }
        true 0 7200 (.response 400)).notificationsEnqueued ≠ 1 := by
  constructor
  · decide
  · decide

/-- C3 amended: when the dispatch fails with num-trials + 1 ≥ retry-limit,
disable-endpoint = true and the licence permitting advanced endpoint
management, the processor commits the delivery status as `failure` and sets
the endpoint inactive via the endpoint repository; exactly one
endpoint-disabled notification is enqueued when the endpoint has a support
email, and none otherwise. -/
theorem exhausted_failure_disables_endpoint
    (d : EventDelivery) (ep : Endpoint) (pr : ProjectConfig) (lic : Licenser)
    (rateLimitRetryAfter maxRetrySeconds : Nat) (outcome : DispatchOutcome)
    (hterm : isTerminalStatus d.status = false)
    (hep : ep.status = .active)
    (hfail : dispatchSuccess outcome = false)
    (hex : d.metadata.retryLimit ≤ d.metadata.numTrials + 1)
    (hdis : pr.disableEndpoint = true)
    (hlic : lic.advancedEndpointMgmt = true) :
    (processEventDelivery d ep pr lic true rateLimitRetryAfter maxRetrySeconds
        outcome).metadataWrite
      = some { status := .failure, numTrials := d.metadata.numTrials + 1,
               description := failureDescription outcome }
    ∧ (processEventDelivery d ep pr lic true rateLimitRetryAfter maxRetrySeconds
        outcome).endpointUpdates = [.inactive]
    ∧ (processEventDelivery d ep pr lic true rateLimitRetryAfter maxRetrySeconds
        outcome).notificationsEnqueued = (if ep.supportEmail = "" then 0 else 1) := by
  unfold processEventDelivery
  rw [hterm, hep]
  have hnretry : ¬(d.metadata.numTrials + 1 < d.metadata.retryLimit) := by omega
  by_cases hmode : d.deliveryMode = .atMostOnce <;>
    by_cases hmail : ep.supportEmail = "" <;>
    simp [hfail, hex, hdis, hlic, hmode, hmail, hnretry]

/-- C3 witness: at the scenario-S5-like inputs with a support email present,
exactly one notification is enqueued. -/
theorem exhausted_failure_disables_endpoint_witness :
    (processEventDelivery
        { status := .scheduled, deliveryMode := .atLeastOnce,
          metadata := { numTrials := 3, retryLimit := 3, intervalSeconds := 20,
                        strategyType := .linear } }
        { status := .active, supportEmail := "test@gmail.com" }
        { disableEndpoint := true } { advancedEndpointMgmt := true }
        true 0 7200 (.response 400)).metadataWrite
      = some { status := .failure, numTrials := 4,
               description := failureDescription (.response 400) }
    ∧ (processEventDelivery
        { status := .scheduled, deliveryMode := .atLeastOnce,
          metadata := { numTrials := 3, retryLimit := 3, intervalSeconds := 20,
                        strategyType := .linear } }
        { status := .active, supportEmail := "test@gmail.com" }
        { disableEndpoint := true } { advancedEndpointMgmt := true }
        true 0 7200 (.response 400)).endpointUpdates = [.inactive]
    ∧ (processEventDelivery
        { status := .scheduled, deliveryMode := .atLeastOnce,
          metadata := { numTrials := 3, retryLimit := 3, intervalSeconds := 20,
                        strategyType := .linear } }
        { status := .active, supportEmail := "test@gmail.com" }
        { disableEndpoint := true } { advancedEndpointMgmt := true }
        true 0 7200 (.response 400)).notificationsEnqueued = 1 := by
  have h := exhausted_failure_disables_endpoint
    { status := .scheduled, deliveryMode := .atLeastOnce,
      metadata := { numTrials := 3, retryLimit := 3, intervalSeconds := 20,
                    strategyType := .linear } }
    { status := .active, supportEmail := "test@gmail.com" }
    { disableEndpoint := true } { advancedEndpointMgmt := true }
    0 7200 (.response 400)
    (by decide) (by decide) (by decide) (by decide) (by decide) (by decide)
  refine ⟨h.1, h.2.1, ?_⟩
  rw [h.2.2]
  decide

/-- C4: when the dispatch fails, the delivery mode is at-least-once and
num-trials + 1 < retry-limit, the processor records exactly one
DeliveryAttempt, commits the metadata write with num-trials incremented,
status `retry` and the failure description, and re-enqueues the job with the
strategy-computed delay (linear strategy: interval-seconds). -/
theorem failure_with_retries_left_requeues
    (d : EventDelivery) (ep : Endpoint) (pr : ProjectConfig) (lic : Licenser)
    (rateLimitRetryAfter maxRetrySeconds : Nat) (outcome : DispatchOutcome)
    (hterm : isTerminalStatus d.status = false)
    (hep : ep.status = .active)
    (hfail : dispatchSuccess outcome = false)
    (hmode : d.deliveryMode = .atLeastOnce)
    (hlt : d.metadata.numTrials + 1 < d.metadata.retryLimit)
    (hstrat : d.metadata.strategyType = .linear) :
    (processEventDelivery d ep pr lic true rateLimitRetryAfter maxRetrySeconds
        outcome).attemptsRecorded = 1
    ∧ (processEventDelivery d ep pr lic true rateLimitRetryAfter maxRetrySeconds
        outcome).metadataWrite
      = some { status := .retry, numTrials := d.metadata.numTrials + 1,
               description := failureDescription outcome }
    ∧ (processEventDelivery d ep pr lic true rateLimitRetryAfter maxRetrySeconds
        outcome).requeueDelay = some d.metadata.intervalSeconds := by
  unfold processEventDelivery
  rw [hterm, hep]
  have hnex : ¬(d.metadata.retryLimit ≤ d.metadata.numTrials + 1) := by omega
  simp [hfail, hmode, hlt, hnex, nextDelaySeconds, hstrat]

/-- C4 witness: scenario S3 — num-trials 0, retry-limit 3, linear 20s,
remote returns 400: one attempt, num-trials 1, status retry, delay 20s,
description `"Endpoint returned status code 400"`. -/
theorem failure_with_retries_left_requeues_witness :
    (processEventDelivery
        { status := .scheduled, deliveryMode := .atLeastOnce,
          metadata := { numTrials := 0, retryLimit := 3, intervalSeconds := 20,
                        strategyType := .linear } }
        { status := .active, supportEmail := "" }
        { disableEndpoint := false } { advancedEndpointMgmt := false }
        true 0 7200 (.response 400)).attemptsRecorded = 1
    ∧ (processEventDelivery
        { status := .scheduled, deliveryMode := .atLeastOnce,
          metadata := { numTrials := 0, retryLimit := 3, intervalSeconds := 20,
                        strategyType := .linear } }
        { status := .active, supportEmail := "" }
        { disableEndpoint := false } { advancedEndpointMgmt := false }
        true 0 7200 (.response 400)).metadataWrite
      = some { status := .retry, numTrials := 1,
               description := failureDescription (.response 400) }
    ∧ (processEventDelivery
        { status := .scheduled, deliveryMode := .atLeastOnce,
          metadata := { numTrials := 0, retryLimit := 3, intervalSeconds := 20,
                        strategyType := .linear } }
        { status := .active, supportEmail := "" }
        { disableEndpoint := false } { advancedEndpointMgmt := false }
        true 0 7200 (.response 400)).requeueDelay = some 20
    ∧ failureDescription (.response 400) = "Endpoint returned status code 400" := by
  have h := failure_with_retries_left_requeues
    { status := .scheduled, deliveryMode := .atLeastOnce,
      metadata := { numTrials := 0, retryLimit := 3, intervalSeconds := 20,
                    strategyType := .linear } }
    { status := .active, supportEmail := "" }
    { disableEndpoint := false } { advancedEndpointMgmt := false }
    0 7200 (.response 400)
    (by decide) (by decide) (by decide) (by decide) (by decide) (by decide)
  exact ⟨h.1, h.2.1, h.2.2, by decide⟩

/-- C5: for an at-most-once delivery whose dispatch fails, the processor
records exactly one DeliveryAttempt, commits status `failure` with the
failure description, and never re-enqueues the job; and since `failure` is
terminal, re-running the processor on the delivery records no further
attempt, so an at-most-once delivery accumulates at most one attempt. -/
theorem at_most_once_failure_terminal
    (d : EventDelivery) (ep : Endpoint) (pr : ProjectConfig) (lic : Licenser)
    (rateLimitRetryAfter maxRetrySeconds : Nat) (outcome : DispatchOutcome)
    (hterm : isTerminalStatus d.status = false)
    (hep : ep.status = .active)
    (hmode : d.deliveryMode = .atMostOnce)
    (hfail : dispatchSuccess outcome = false) :
    (processEventDelivery d ep pr lic true rateLimitRetryAfter maxRetrySeconds
        outcome).attemptsRecorded = 1
    ∧ (processEventDelivery d ep pr lic true rateLimitRetryAfter maxRetrySeconds
        outcome).metadataWrite
      = some { status := .failure, numTrials := d.metadata.numTrials + 1,
               description := failureDescription outcome }
    ∧ (processEventDelivery d ep pr lic true rateLimitRetryAfter maxRetrySeconds
        outcome).requeueDelay = none
    ∧ (processEventDelivery { d with status := .failure } ep pr lic true
        rateLimitRetryAfter maxRetrySeconds outcome).attemptsRecorded = 0 := by
  refine ⟨?_, ?_, ?_, ?_⟩
  all_goals unfold processEventDelivery
  all_goals rw [hep]
  · rw [hterm]; simp [hfail, hmode]
  · rw [hterm]; simp [hfail, hmode]
  · rw [hterm]; simp [hfail, hmode]
  · simp [isTerminalStatus]

/-- C5 witness: an at-most-once delivery receiving a 400 ends in failure
with its description set, is not re-enqueued, and a re-run records no
attempt. -/
theorem at_most_once_failure_terminal_witness :
    (processEventDelivery
        { status := .scheduled, deliveryMode := .atMostOnce,
          metadata := { numTrials := 0, retryLimit := 3, intervalSeconds := 20,
                        strategyType := .linear } }
        { status := .active, supportEmail := "" }
        { disableEndpoint := false } { advancedEndpointMgmt := false }
        true 0 7200 (.response 400)).attemptsRecorded = 1
    ∧ (processEventDelivery
        { status := .scheduled, deliveryMode := .atMostOnce,
          metadata := { numTrials := 0, retryLimit := 3, intervalSeconds := 20,
                        strategyType := .linear } }
        { status := .active, supportEmail := "" }
        { disableEndpoint := false } { advancedEndpointMgmt := false }
        true 0 7200 (.response 400)).metadataWrite
      = some { status := .failure, numTrials := 1,
               description := failureDescription (.response 400) }
    ∧ (processEventDelivery
        { status := .scheduled, deliveryMode := .atMostOnce,
          metadata := { numTrials := 0, retryLimit := 3, intervalSeconds := 20,
                        strategyType := .linear } }
        { status := .active, supportEmail := "" }
        { disableEndpoint := false } { advancedEndpointMgmt := false }
        true 0 7200 (.response 400)).requeueDelay = none
    ∧ (processEventDelivery
        { status := .failure, deliveryMode := .atMostOnce,
          metadata := { numTrials := 0, retryLimit := 3, intervalSeconds := 20,
                        strategyType := .linear } }
        { status := .active, supportEmail := "" }
        { disableEndpoint := false } { advancedEndpointMgmt := false }
        true 0 7200 (.response 400)).attemptsRecorded = 0 := by
  have h := at_most_once_failure_terminal
    { status := .scheduled, deliveryMode := .atMostOnce,
      metadata := { numTrials := 0, retryLimit := 3, intervalSeconds := 20,
                    strategyType := .linear } }
    { status := .active, supportEmail := "" }
    { disableEndpoint := false } { advancedEndpointMgmt := false }
    0 7200 (.response 400)
    (by decide) (by decide) (by decide) (by decide)
  exact h

/-- C6: whenever a dispatch is classified as a failure because the
subscriber returned an HTTP status outside [200, 299], the description
committed with the delivery is exactly
`"Endpoint returned status code N"` for the observed status N. -/
theorem non_2xx_failure_description
    (d : EventDelivery) (ep : Endpoint) (pr : ProjectConfig) (lic : Licenser)
    (rateLimitRetryAfter maxRetrySeconds : Nat) (statusCode : Nat)
    (hterm : isTerminalStatus d.status = false)
    (hep : ep.status = .active)
    (hcode : ¬(200 ≤ statusCode ∧ statusCode ≤ 299)) :
    (processEventDelivery d ep pr lic true rateLimitRetryAfter maxRetrySeconds
        (.response statusCode)).metadataWrite.map (fun w => w.description)
      = some ("Endpoint returned status code " ++ toString statusCode) := by
  have hfail : dispatchSuccess (.response statusCode) = false := by
    simp only [dispatchSuccess, Bool.and_eq_false_iff, decide_eq_false_iff_not]
    omega
  unfold processEventDelivery
  rw [hterm, hep]
  simp [hfail, failureDescription]

/-- C6 witness: a 400 response yields the description
`"Endpoint returned status code 400"`. -/
theorem non_2xx_failure_description_witness :
    (processEventDelivery
        { status := .scheduled, deliveryMode := .atLeastOnce,
          metadata := { numTrials := 0, retryLimit := 3, intervalSeconds := 20,
                        strategyType := .linear } }
        { status := .active, supportEmail := "" }
        { disableEndpoint := false } { advancedEndpointMgmt := false }
        true 0 7200 (.response 400)).metadataWrite.map (fun w => w.description)
      = some "Endpoint returned status code 400" := by
  have h := non_2xx_failure_description
    { status := .scheduled, deliveryMode := .atLeastOnce,
      metadata := { numTrials := 0, retryLimit := 3, intervalSeconds := 20,
                    strategyType := .linear } }
    { status := .active, supportEmail := "" }
    { disableEndpoint := false } { advancedEndpointMgmt := false }
    0 7200 400
    (by decide) (by decide) (by omega)
  rw [h]
  decide

/-! ## Theorems about the postgres repository -/

/-- C8: `UpdateEventDeliveryMetadata` issues one UPDATE that sets the
`status`, `metadata` and `latency_seconds` columns (and `updated_at`)
together on the matched row, leaves every other column unchanged, and
returns `ErrEventDeliveryAttemptsNotUpdated` when no row matches the
(id, project) pair. -/
theorem updateEventDeliveryMetadata_atomic_frame
    (table : List EventDeliveryRow) (now : Nat) (status metadata : String)
    (latencySeconds : Nat) (uid pid : String) :
    ((∀ r ∈ table, ¬(r.id = uid ∧ r.projectId = pid)) →
      updateEventDeliveryMetadata table now status metadata latencySeconds uid pid
        = .error .eventDeliveryAttemptsNotUpdated)
    ∧ ∀ res, updateEventDeliveryMetadata table now status metadata latencySeconds uid pid
          = .ok res →
        res.length = table.length
        ∧ ∀ i (hi : i < table.length) (hi2 : i < res.length),
            (matchesMetadataUpdate table[i] uid pid = false → res[i] = table[i])
            ∧ (matchesMetadataUpdate table[i] uid pid = true →
                res[i].status = status ∧ res[i].metadata = metadata
                ∧ res[i].latencySeconds = latencySeconds ∧ res[i].updatedAt = now
                ∧ res[i].id = table[i].id ∧ res[i].projectId = table[i].projectId
                ∧ res[i].eventId = table[i].eventId ∧ res[i].eventType = table[i].eventType
                ∧ res[i].endpointId = table[i].endpointId
                ∧ res[i].description = table[i].description
                ∧ res[i].deliveryMode = table[i].deliveryMode
                ∧ res[i].createdAt = table[i].createdAt
                ∧ res[i].deletedAt = table[i].deletedAt) := by
  constructor
  · intro h
    have hcount : table.countP (fun r => matchesMetadataUpdate r uid pid) = 0 := by
      rw [List.countP_eq_zero]
      intro r hr hmatch
      have hb : matchesMetadataUpdate r uid pid = true := hmatch
      simp only [matchesMetadataUpdate, Bool.and_eq_true, beq_iff_eq] at hb
      exact h r hr ⟨hb.1.1, hb.1.2⟩
    unfold updateEventDeliveryMetadata
    rw [if_pos hcount]
  · intro res hres
    unfold updateEventDeliveryMetadata at hres
    split at hres
    · exact absurd hres (by simp)
    · have hmap := Except.ok.inj hres
      subst hmap
      refine ⟨by simp, ?_⟩
      intro i hi hi2
      constructor
      · intro hmatch
        simp [hmatch]
      · intro hmatch
        simp [hmatch]

/-- C8 witness: on a one-row table the matched row gets the new status,
metadata and latency with its other columns preserved, and a mismatching
project id yields the not-updated error. -/
theorem updateEventDeliveryMetadata_atomic_frame_witness :
    updateEventDeliveryMetadata [mdRowBefore] 5 "success" "m2" 7 "d1" "p1" = .ok [mdRowAfter]
    ∧ mdRowAfter.status = "success" ∧ mdRowAfter.metadata = "m2"
    ∧ mdRowAfter.latencySeconds = 7 ∧ mdRowAfter.updatedAt = 5
    ∧ mdRowAfter.description = mdRowBefore.description
    ∧ mdRowAfter.eventId = mdRowBefore.eventId
    ∧ updateEventDeliveryMetadata [mdRowBefore] 5 "success" "m2" 7 "d1" "other"
        = .error .eventDeliveryAttemptsNotUpdated := by
  have hok : updateEventDeliveryMetadata [mdRowBefore] 5 "success" "m2" 7 "d1" "p1"
      = .ok [mdRowAfter] := by rfl
  have h := (updateEventDeliveryMetadata_atomic_frame [mdRowBefore] 5 "success" "m2" 7
      "d1" "p1").2 [mdRowAfter] hok
  have h0 := (h.2 0 (by decide) (by decide)).2 (by decide)
  have herr := (updateEventDeliveryMetadata_atomic_frame [mdRowBefore] 5 "success" "m2" 7
      "d1" "other").1 (by decide)
  obtain ⟨hst, hmd, hlat, hupd, _, _, hev, _, _, hdesc, _, _, _⟩ := h0
  exact ⟨hok, hst, hmd, hlat, hupd, hdesc, hev, herr⟩

/-- C9 counterexample: the stuck-delivery query thresholds on the CREATION
time of the row, not on how long it has been in the status.  A delivery
created at instant 0 whose status is set to `processing` at instant 99 (so
it has been in that state for 1 second) is still returned by the reaper
query at instant 100. -/
theorem find_stuck_threshold_is_creation_age_cex :
    updateStatusOfEventDelivery [reaperRowCreated] 99 "processing" "" "p1" "d1"
      = .ok [reaperRowProcessing]
    ∧ fetchStuckEventDeliveries [reaperRowProcessing] [] 100 "processing"
      = [reaperRowProcessing]
    ∧ reaperRowProcessing.updatedAt = 99
    ∧ ¬(30 ≤ 100 - reaperRowProcessing.updatedAt) := by
  refine ⟨by rfl, by rfl, by rfl, by decide⟩

/-- C9 amended: every row returned by the stuck-delivery query has the given
status, was CREATED at least 30 seconds before now, is not soft-deleted and
is not locked by another transaction (FOR UPDATE SKIP LOCKED); hence if a
second reaper runs while the results of the first one are row-locked, the two
result sets are disjoint. -/
theorem find_stuck_filter_and_skip_locked
    (table : List EventDeliveryRow) (locked lockedB : List String)
    (now : Nat) (status : String) :
    (∀ r ∈ fetchStuckEventDeliveries table locked now status,
        r.status = status ∧ r.createdAt + 30 ≤ now ∧ r.deletedAt = none
          ∧ locked.contains r.id = false)
    ∧ ((∀ r ∈ fetchStuckEventDeliveries table locked now status,
          lockedB.contains r.id = true) →
        ∀ r ∈ fetchStuckEventDeliveries table locked now status,
          r ∉ fetchStuckEventDeliveries table lockedB now status) := by
  have hmain : ∀ (lk : List String) (r : EventDeliveryRow),
      r ∈ fetchStuckEventDeliveries table lk now status →
      r.status = status ∧ r.createdAt + 30 ≤ now ∧ r.deletedAt = none
        ∧ lk.contains r.id = false := by
    intro lk r hr
    have hr2 := List.mem_of_mem_take hr
    have hr3 := (List.mem_filter.mp hr2).2
    simp only [Bool.and_eq_true, beq_iff_eq, decide_eq_true_eq,
      Option.isNone_iff_eq_none, Bool.not_eq_true'] at hr3
    exact ⟨hr3.1.1.1, hr3.1.1.2, hr3.1.2, hr3.2⟩
  refine ⟨hmain locked, ?_⟩
  intro hlk r hr hrB
  have hfalse := (hmain lockedB r hrB).2.2.2
  have htrue := hlk r hr
  rw [htrue] at hfalse
  exact Bool.noConfusion hfalse

/-- C9 witness: a processing row created 100 seconds ago is returned with
the guaranteed properties, and is skipped once its id is locked. -/
theorem find_stuck_filter_and_skip_locked_witness :
    stuckModeRow ∈ fetchStuckEventDeliveries [stuckModeRow] [] 100 "processing"
    ∧ stuckModeRow.status = "processing"
    ∧ stuckModeRow.createdAt + 30 ≤ 100
    ∧ stuckModeRow ∉ fetchStuckEventDeliveries [stuckModeRow] ["d1"] 100 "processing" := by
  have hmem : stuckModeRow ∈ fetchStuckEventDeliveries [stuckModeRow] [] 100 "processing" := by
    decide
  have h := find_stuck_filter_and_skip_locked [stuckModeRow] [] ["d1"] 100 "processing"
  exact ⟨hmem, (h.1 stuckModeRow hmem).1, (h.1 stuckModeRow hmem).2.1,
    h.2 (by decide) stuckModeRow hmem⟩

/-- C10 counterexample: `FindStuckEventDeliveriesByStatus` selects only `id`
and `project_id`, so the deliveries it returns carry the Go zero value `""`
as delivery mode, even though the stored mode of the row is not NULL: a
delivery observed through the repository CAN have an empty delivery mode. -/
theorem stuck_read_path_empty_delivery_mode_cex :
    findStuckEventDeliveriesByStatus [stuckModeRow] [] 100 "processing"
      = [{ uid := "d1", projectId := "p1" }]
    ∧ (findStuckEventDeliveriesByStatus [stuckModeRow] [] 100 "processing").map
        (fun g => g.deliveryMode) = [""]
    ∧ stuckModeRow.deliveryMode = some "at_least_once" := by
  refine ⟨by rfl, by rfl, by rfl⟩

/-- C10 amended: deliveries created through `CreateEventDelivery` or
`CreateEventDeliveries` with an empty delivery mode are persisted as
`at_least_once`, and the read paths that select the delivery-mode column
(slim fetch and paged listing) coalesce a NULL stored mode to
`at_least_once`, so those paths never return an empty mode; the
stuck-delivery read path, which selects only id and project id, is the
exception. -/
theorem delivery_mode_defaulted_and_coalesced
    (table : List EventDeliveryRow) (hwf : deliveryModeWellFormed table)
    (d : DatastoreEventDelivery) (hd : d.deliveryMode = "")
    (ds : List DatastoreEventDelivery) (hds : ∀ x ∈ ds, x.deliveryMode = "")
    (now : Nat) (pid uid : String) (f : PagedFilter) :
    (∀ r ∈ createEventDelivery table d now, r ∈ table ∨ r.deliveryMode = some "at_least_once")
    ∧ (∀ r ∈ createEventDeliveries table ds now,
        r ∈ table ∨ r.deliveryMode = some "at_least_once")
    ∧ (∀ g, fetchEventDeliverySlim table pid uid = some g → g.deliveryMode ≠ "")
    ∧ (∀ g ∈ loadEventDeliveriesPaged table f, g.deliveryMode ≠ "") := by
  have hmode : ∀ r ∈ table, r.deliveryMode.getD "at_least_once" ≠ "" := by
    intro r hr
    rcases hwf r hr with h | h | h <;> simp [h]
  refine ⟨?_, ?_, ?_, ?_⟩
  · intro r hr
    rcases List.mem_append.mp hr with h | h
    · exact Or.inl h
    · right
      simp only [List.mem_singleton] at h
      subst h
      simp [rowOfNewEventDelivery, hd]
  · intro r hr
    rcases List.mem_append.mp hr with h | h
    · exact Or.inl h
    · right
      obtain ⟨x, hx, rfl⟩ := List.mem_map.mp h
      simp [rowOfNewEventDelivery, hds x hx]
  · intro g hg
    unfold fetchEventDeliverySlim at hg
    obtain ⟨r, hfind, rfl⟩ := Option.map_eq_some'.mp hg
    have hr : r ∈ table := List.mem_of_find?_eq_some hfind
    simpa [toDatastoreEventDelivery] using hmode r hr
  · intro g hg
    obtain ⟨r, hr, rfl⟩ := List.mem_map.mp hg
    have hr2 := List.mem_of_mem_take hr
    have hr3 : r ∈ table.filter (pagedRowFilter f) :=
      (List.perm_insertionSort _ _).mem_iff.mp hr2
    have hr4 : r ∈ table := (List.mem_filter.mp hr3).1
    simpa [toDatastoreEventDelivery] using hmode r hr4

/-- C10 witness: a delivery created with an empty mode is stored as
`at_least_once`, and the slim fetch and the paged listing over a table with
a NULL-free mode column return non-empty modes. -/
theorem delivery_mode_defaulted_and_coalesced_witness :
    (rowOfNewEventDelivery { uid := "d2", projectId := "p1" } 7).deliveryMode
        = some "at_least_once"
    ∧ fetchEventDeliverySlim [stuckModeRow] "p1" "d1"
        = some (toDatastoreEventDelivery stuckModeRow)
    ∧ (toDatastoreEventDelivery stuckModeRow).deliveryMode ≠ ""
    ∧ toDatastoreEventDelivery stuckModeRow ∈
        loadEventDeliveriesPaged [stuckModeRow]
          { projectId := "p1", eventId := "", eventType := "", startDate := 0,
            endDate := 100, cursor := "zz", limit := 10 } := by
  have h := delivery_mode_defaulted_and_coalesced [stuckModeRow]
    (by unfold deliveryModeWellFormed; decide)
    { uid := "d2", projectId := "p1" } (by rfl) [] (by simp) 7 "p1" "d1"
    { projectId := "p1", eventId := "", eventType := "", startDate := 0,
      endDate := 100, cursor := "zz", limit := 10 }
  have hmem : rowOfNewEventDelivery { uid := "d2", projectId := "p1" } 7 ∈
      createEventDelivery [stuckModeRow] { uid := "d2", projectId := "p1" } 7 := by
    decide
  have h1 := (h.1 _ hmem).resolve_left (by decide)
  have hslim : fetchEventDeliverySlim [stuckModeRow] "p1" "d1"
      = some (toDatastoreEventDelivery stuckModeRow) := by rfl
  have h3 := h.2.2.1 _ hslim
  have hmemp : toDatastoreEventDelivery stuckModeRow ∈
      loadEventDeliveriesPaged [stuckModeRow]
        { projectId := "p1", eventId := "", eventType := "", startDate := 0,
          endDate := 100, cursor := "zz", limit := 10 } := by
    decide
  exact ⟨h1, hslim, h3, hmemp⟩
